import Mathlib

/-!
Verification of the Tracker orchestration layer (`src/tracker.rs`).

The Tracker coordinates external collaborators (Index, Mempool, Daemon,
ScriptHashStatus, Cache) whose code is not part of the analysed source;
they are embedded as oracle records whose fields carry the exact call
contracts the Tracker uses.  Machine integers (`u64`, `usize`) are
modelled as `Nat` (the code performs no arithmetic on them, only
comparisons and map keys), opaque identifiers (`Txid`, `BlockHash`) as
`Nat`, and Rust `Result` as `Except String`.
-/

namespace Electrs

/-- Collaborator operations consumed by `Tracker::sync`.  `I` is the
Index state, `M` the Mempool state.  The `daemon` and `exit_flag`
arguments of the Rust methods are opaque to the Tracker and are folded
into the oracle closures.  `Index::sync` and
`Index::silent_payments_sync` take `&mut self` and return
`Result<bool>`, so they are embedded as returning a result together
with the updated index state; `Mempool::sync` returns `()` and never
surfaces a failure, so it is a total state transformer. -/
structure SyncEnv (I M : Type) where
  indexSync : I → Except String Bool × I
  spSync : I → Except String Bool × I
  mempoolSync : M → M

/-- The `Tracker` struct of `src/tracker.rs` (the `metrics` field is an
opaque sink the analysed methods never read and is omitted). -/
structure Tracker (I M : Type) where
  index : I
  mempool : M
  ignore_mempool : Bool
  silent_payments_index : Bool

/-- Embedding of `Tracker::sync` (`src/tracker.rs:77-87`):

```rust
let mut done = self.index.sync(daemon, exit_flag)?;
if done && self.silent_payments_index {
    done = self.index.silent_payments_sync(daemon, exit_flag)?;
}
if done && !self.ignore_mempool {
    self.mempool.sync(daemon, exit_flag);
}
Ok(done)
```

The method mutates `&mut self`; the embedding returns the result value
together with the final tracker state (on an early `?` return the
fields not yet touched keep their previous values). -/
def Tracker.sync (env : SyncEnv I M) (t : Tracker I M) :
    Except String Bool × Tracker I M :=
  match env.indexSync t.index with
  | (Except.error e, i0) => (Except.error e, { t with index := i0 })
  | (Except.ok done0, i0) =>
    match (if done0 && t.silent_payments_index then env.spSync i0
           else (Except.ok done0, i0)) with
    | (Except.error e, i1) => (Except.error e, { t with index := i1 })
    | (Except.ok done, i1) =>
      let mp := if done && !t.ignore_mempool then env.mempoolSync t.mempool
                else t.mempool
      (Except.ok done, { t with index := i1, mempool := mp })

/-- Collaborator operations consumed by `Tracker::update_scripthash_status`.
`S` is the `ScriptHashStatus` state, `H` the statushash type.
`ScriptHashStatus::statushash()` is a read-only accessor;
`ScriptHashStatus::sync(&mut self, index, mempool, daemon, cache)`
returns `Result<()>` and is embedded as a fallible state transformer
(the `index`, `mempool`, `daemon` and `cache` arguments are folded into
the closure). -/
structure StatusEnv (S H : Type) where
  statushash : S → H
  statusSync : S → Except String S

/-- Embedding of `Tracker::update_scripthash_status`
(`src/tracker.rs:103-112`):

```rust
let prev_statushash = status.statushash();
status.sync(&self.index, &self.mempool, daemon, cache)?;
Ok(prev_statushash != status.statushash())
```
-/
def Tracker.update_scripthash_status [DecidableEq H]
    (env : StatusEnv S H) (status : S) : Except String (Bool × S) :=
  let prev_statushash := env.statushash status
  match env.statusSync status with
  | Except.error e => Except.error e
  | Except.ok status1 =>
    Except.ok (decide (prev_statushash ≠ env.statushash status1), status1)

/-- Modelled from the spec: `ScriptHashStatus` itself (`src/status.rs`
is not among the analysed sources; only its call contract is).  Per
spec §3 and §4.4 a status owns a cached `statushash`, a digest computed
deterministically from the (Index, Mempool) snapshot for the
subscription's script hash, recomputed from scratch by
`ScriptHashStatus::sync`.  `digest` stands for the digest computation
over the snapshot. -/
structure ScriptHashStatus (H : Type) where
  scripthash : Nat
  statushash : H

/-- Modelled from the spec: `ScriptHashStatus::sync` recomputes the
history of `s.scripthash` from scratch against the `(idx, mp)` snapshot
and stores the resulting digest. -/
def ScriptHashStatus.syncAgainst (digest : I → M → Nat → H)
    (idx : I) (mp : M) (s : ScriptHashStatus H) : ScriptHashStatus H :=
  { s with statushash := digest idx mp s.scripthash }

/-- The `StatusEnv` induced by a fixed `(Index, Mempool)` snapshot and a
digest function, as used when `Tracker::update_scripthash_status` runs
against that snapshot. -/
def statusEnvOf (digest : I → M → Nat → H) (idx : I) (mp : M) :
    StatusEnv (ScriptHashStatus H) H :=
  { statushash := ScriptHashStatus.statushash
    statusSync := fun s => Except.ok (ScriptHashStatus.syncAgainst digest idx mp s) }

/-- A transaction as scanned by the `FindTransaction` visitor: the
visitor matches on the computed txid; `data` keeps distinct
transactions distinguishable beyond their txid. -/
structure Transaction where
  txid : Nat
  data : Nat
deriving DecidableEq

/-- A raw block as delivered by `Daemon::for_blocks`: either its content
fails structural validation (`bsl::Block::visit` returns an error other
than `VisitBreak`) or it parses to a transaction list. -/
inductive RawBlock where
  | invalid (code : Nat)
  | valid (txs : List Transaction)
deriving DecidableEq

/-- Collaborator operations consumed by `Tracker::lookup_transaction`:
`Index::filter_by_txid` returns the candidate block hashes recorded for
a txid (in the Index's candidate-set order), and the daemon resolves a
block hash to raw block content (`none` models a daemon fetch failure,
which `for_blocks` surfaces as an error). -/
structure LookupEnv where
  filter_by_txid : Nat → List Nat
  fetch : Nat → Option RawBlock

/-- Outcome of `Tracker::lookup_transaction`: a normal `Result` value
(`found` / `err`), or the `panic!("core returned invalid block: ...")`
the callback executes on structurally invalid block content —
a process-fatal fault distinct from the recoverable error channel. -/
inductive LookupOutcome where
  | found (r : Option (Nat × Transaction))
  | err (msg : String)
  | fatal (msg : String)
deriving DecidableEq

/-- The `FindTransaction` visitor over a parsed block: first transaction
whose computed txid matches, stopping at the first hit (`VisitBreak`). -/
def findTx (txid : Nat) (txs : List Transaction) : Option Transaction :=
  txs.find? (fun tx => tx.txid == txid)

/-- The `Daemon::for_blocks` loop of `Tracker::lookup_transaction`
(`src/tracker.rs:126-135`): blocks are delivered in candidate order;
for each one the callback first checks `result.is_some()` (keeping the
first matching transaction and skipping the scan of later blocks),
otherwise visits the block — panicking on invalid content — and stores
the visitor's match, if any.  A daemon fetch failure aborts
`for_blocks` with an error regardless of any match already found. -/
def lookupLoop (txid : Nat) (env : LookupEnv) :
    List Nat → Option (Nat × Transaction) → LookupOutcome
  | [], result => LookupOutcome.found result
  | blockhash :: rest, result =>
    match env.fetch blockhash with
    | none => LookupOutcome.err "daemon"
    | some block =>
      if result.isSome then
        lookupLoop txid env rest result
      else
        match block with
        | RawBlock.invalid _ => LookupOutcome.fatal "core returned invalid block"
        | RawBlock.valid txs =>
          lookupLoop txid env rest ((findTx txid txs).map (fun tx => (blockhash, tx)))

/-- Embedding of `Tracker::lookup_transaction` (`src/tracker.rs:118-137`):

```rust
let blockhashes = self.index.filter_by_txid(txid);
let mut result = None;
daemon.for_blocks(blockhashes, |blockhash, block| {
    if result.is_some() { return; }
    let mut visitor = FindTransaction::new(txid);
    result = match bsl::Block::visit(&block, &mut visitor) {
        Ok(_) | Err(VisitBreak) => visitor.tx_found().map(|tx| (blockhash, tx)),
        Err(e) => panic!("core returned invalid block: {:?}", e),
    };
})?;
Ok(result)
```
-/
def Tracker.lookup_transaction (env : LookupEnv) (txid : Nat) : LookupOutcome :=
  lookupLoop txid env (env.filter_by_txid txid) none

/-- A tweak record as yielded by `Index::get_tweaks`: a block height and
the tweak values recorded for it. -/
abbrev TweakRecord := Nat × List String

/-- `HashMap::entry(k).or_insert_with(Vec::new).extend(vs)` over an
association-list model of `HashMap<u64, Vec<String>>` (unique keys):
append to the entry for `k` if present, otherwise insert `(k, vs)`. -/
def hmEntryExtend (m : List (Nat × List String)) (k : Nat) (vs : List String) :
    List (Nat × List String) :=
  match m with
  | [] => [(k, vs)]
  | (k1, vs1) :: rest =>
    if k1 = k then (k1, vs1 ++ vs) :: rest
    else (k1, vs1) :: hmEntryExtend rest k vs

/-- `HashMap` lookup over the association-list model. -/
def hmFind (m : List (Nat × List String)) (k : Nat) : Option (List String) :=
  match m with
  | [] => none
  | (k1, vs1) :: rest => if k1 = k then some vs1 else hmFind rest k

/-- Embedding of `Tracker::get_tweaks` (`src/tracker.rs:139-146`):

```rust
let tweaks: Vec<(u64, Vec<String>)> = self.index.get_tweaks(height as u64).collect();
let mut res: HashMap<u64, Vec<String>> = HashMap::new();
for (height, tweaks) in tweaks {
    res.entry(height).or_insert_with(Vec::new).extend(tweaks)
}
Ok(res)
```

`idx` embeds `Index::get_tweaks`: the sequence of tweak records the
Index yields at or above the given height. -/
def Tracker.get_tweaks (idx : Nat → List TweakRecord) (height : Nat) :
    Except String (List (Nat × List String)) :=
  Except.ok ((idx height).foldl (fun res r => hmEntryExtend res r.1 r.2) [])

/-- All tweak values the record sequence carries for height `h`,
concatenated in record order. -/
def tweaksAt : List TweakRecord → Nat → List String
  | [], _ => []
  | r :: rs, h => if r.1 = h then r.2 ++ tweaksAt rs h else tweaksAt rs h

/-! Characterization lemmas for `Tracker.sync` -/

theorem sync_of_index_error (env : SyncEnv I M) (t : Tracker I M) (e : String) (i0 : I)
    (h0 : env.indexSync t.index = (Except.error e, i0)) :
    Tracker.sync env t = (Except.error e, { t with index := i0 }) := by
  simp [Tracker.sync, h0]

theorem sync_of_index_not_done (env : SyncEnv I M) (t : Tracker I M) (i0 : I)
    (h0 : env.indexSync t.index = (Except.ok false, i0)) :
    Tracker.sync env t = (Except.ok false, { t with index := i0 }) := by
  simp [Tracker.sync, h0]

theorem sync_of_index_done_sp_disabled (env : SyncEnv I M) (t : Tracker I M) (i0 : I)
    (h0 : env.indexSync t.index = (Except.ok true, i0))
    (hsp : t.silent_payments_index = false) :
    Tracker.sync env t =
      (Except.ok true,
       { t with index := i0,
                mempool := if t.ignore_mempool then t.mempool
                           else env.mempoolSync t.mempool }) := by
  simp [Tracker.sync, h0, hsp]
  cases t.ignore_mempool <;> simp

theorem sync_of_sp_error (env : SyncEnv I M) (t : Tracker I M) (i0 i1 : I) (e : String)
    (h0 : env.indexSync t.index = (Except.ok true, i0))
    (hsp : t.silent_payments_index = true)
    (h1 : env.spSync i0 = (Except.error e, i1)) :
    Tracker.sync env t = (Except.error e, { t with index := i1 }) := by
  simp [Tracker.sync, h0, hsp, h1]

theorem sync_of_sp_result (env : SyncEnv I M) (t : Tracker I M) (i0 i1 : I) (done : Bool)
    (h0 : env.indexSync t.index = (Except.ok true, i0))
    (hsp : t.silent_payments_index = true)
    (h1 : env.spSync i0 = (Except.ok done, i1)) :
    Tracker.sync env t =
      (Except.ok done,
       { t with index := i1,
                mempool := if done && !t.ignore_mempool then env.mempoolSync t.mempool
                           else t.mempool }) := by
  simp [Tracker.sync, h0, hsp, h1]

/-- C1: with the silent-payments index enabled, `Tracker::sync` returns
`done = true` only if both the base index sync and the silent-payments
sub-sync reported done; if the sub-step reports not-finished, `sync`
returns `done = false` even though the base index sync returned true. -/
theorem sync_silent_payments_gating (env : SyncEnv I M) (t : Tracker I M)
    (hsp : t.silent_payments_index = true) :
    (∀ (done : Bool) (t' : Tracker I M),
      Tracker.sync env t = (Except.ok done, t') → done = true →
      ∃ i0 i1, env.indexSync t.index = (Except.ok true, i0) ∧
        env.spSync i0 = (Except.ok true, i1)) ∧
    (∀ i0 i1, env.indexSync t.index = (Except.ok true, i0) →
      env.spSync i0 = (Except.ok false, i1) →
      ∃ t', Tracker.sync env t = (Except.ok false, t')) := by
  constructor
  · intro done t' hrun hdone
    subst hdone
    rcases h0 : env.indexSync t.index with ⟨e | b0, i0⟩
    · rw [sync_of_index_error env t e i0 h0] at hrun
      simp at hrun
    · cases b0 with
      | false =>
        rw [sync_of_index_not_done env t i0 h0] at hrun
        simp at hrun
      | true =>
        rcases h1 : env.spSync i0 with ⟨e1 | b1, i1⟩
        · rw [sync_of_sp_error env t i0 i1 e1 h0 hsp h1] at hrun
          simp at hrun
        · cases b1 with
          | false =>
            rw [sync_of_sp_result env t i0 i1 false h0 hsp h1] at hrun
            simp at hrun
          | true => exact ⟨i0, i1, rfl, h1⟩
  · intro i0 i1 h0 h1
    exact ⟨_, sync_of_sp_result env t i0 i1 false h0 hsp h1⟩

/-- Concrete instantiation for the witnesses: the base index sync
finishes, the silent-payments sub-sync does not. -/
def envC1 : SyncEnv Nat Nat :=
  { indexSync := fun i => (Except.ok true, i + 1)
    spSync := fun i => (Except.ok false, i)
    mempoolSync := fun m => m + 10 }

def trackerC1 : Tracker Nat Nat :=
  { index := 0, mempool := 0, ignore_mempool := false, silent_payments_index := true }

/-- Witness for C1 at a concrete tracker and environment. -/
theorem sync_silent_payments_gating_witness :
    ∃ t', Tracker.sync envC1 trackerC1 = (Except.ok false, t') :=
  (sync_silent_payments_gating envC1 trackerC1 rfl).2 1 1 rfl rfl

/-- C4: the Mempool is resynchronized exactly when the combined `done`
flag is true and mempool tracking is not disabled; an error from the
index sync or the silent-payments sync propagates verbatim and leaves
the mempool field untouched.  (That the Mempool's own sync result is
not surfaced is reflected in the embedding's type: `Mempool::sync`
returns `()`, so `mempoolSync` has no error channel at all.) -/
theorem sync_mempool_frame (env : SyncEnv I M) (t : Tracker I M) :
    (∀ e i0, env.indexSync t.index = (Except.error e, i0) →
      Tracker.sync env t = (Except.error e, { t with index := i0 })) ∧
    (∀ i0 e i1, env.indexSync t.index = (Except.ok true, i0) →
      t.silent_payments_index = true →
      env.spSync i0 = (Except.error e, i1) →
      Tracker.sync env t = (Except.error e, { t with index := i1 })) ∧
    (((Tracker.sync env t).1 = Except.ok true ∧ t.ignore_mempool = false) →
      (Tracker.sync env t).2.mempool = env.mempoolSync t.mempool) ∧
    (¬((Tracker.sync env t).1 = Except.ok true ∧ t.ignore_mempool = false) →
      (Tracker.sync env t).2.mempool = t.mempool) := by
  refine ⟨fun e i0 h0 => sync_of_index_error env t e i0 h0,
          fun i0 e i1 h0 hsp h1 => sync_of_sp_error env t i0 i1 e h0 hsp h1, ?_⟩
  rcases h0 : env.indexSync t.index with ⟨e | b0, i0⟩
  · rw [sync_of_index_error env t e i0 h0]
    exact ⟨fun hc => absurd hc.1 (by simp), fun _ => rfl⟩
  · cases b0 with
    | false =>
      rw [sync_of_index_not_done env t i0 h0]
      exact ⟨fun hc => absurd hc.1 (by simp), fun _ => rfl⟩
    | true =>
      cases hsp : t.silent_payments_index with
      | false =>
        rw [sync_of_index_done_sp_disabled env t i0 h0 hsp]
        constructor
        · rintro ⟨-, hig⟩
          simp [hig]
        · intro hn
          simp only [true_and, Prod.fst] at hn
          simp at hn
          simp [hn]
      | true =>
        rcases h1 : env.spSync i0 with ⟨e1 | b1, i1⟩
        · rw [sync_of_sp_error env t i0 i1 e1 h0 hsp h1]
          exact ⟨fun hc => absurd hc.1 (by simp), fun _ => rfl⟩
        · rw [sync_of_sp_result env t i0 i1 b1 h0 hsp h1]
          cases b1 with
          | false =>
            constructor
            · rintro ⟨hc, -⟩
              simp at hc
            · intro _
              simp
          | true =>
            constructor
            · rintro ⟨-, hig⟩
              simp [hig]
            · intro hn
              simp at hn
              simp [hn]

def envC4 : SyncEnv Nat Nat :=
  { indexSync := fun i => (Except.error "disconnect", i)
    spSync := fun i => (Except.ok true, i)
    mempoolSync := fun m => m + 10 }

def trackerC4 : Tracker Nat Nat :=
  { index := 0, mempool := 5, ignore_mempool := false, silent_payments_index := true }

/-- Witness for C4: an index-sync error propagates and the returned
tracker still holds the original mempool. -/
theorem sync_mempool_frame_witness :
    Tracker.sync envC4 trackerC4 = (Except.error "disconnect", { trackerC4 with index := 0 }) :=
  (sync_mempool_frame envC4 trackerC4).1 "disconnect" 0 rfl

/-- C9: when the index (and, if enabled, the silent-payments sub-index)
is already fully caught up, `sync` returns `done = true` and the only
effect on the Mempool is the single refresh call (or nothing when
mempool tracking is disabled). -/
theorem sync_idempotent (env : SyncEnv I M) (t : Tracker I M) (i0 iF : I)
    (h0 : env.indexSync t.index = (Except.ok true, i0))
    (hsp : (t.silent_payments_index = false ∧ iF = i0) ∨
           (t.silent_payments_index = true ∧ env.spSync i0 = (Except.ok true, iF))) :
    Tracker.sync env t =
      (Except.ok true,
       { t with index := iF,
                mempool := if t.ignore_mempool then t.mempool
                           else env.mempoolSync t.mempool }) := by
  rcases hsp with ⟨hs, rfl⟩ | ⟨hs, h1⟩
  · exact sync_of_index_done_sp_disabled env t iF h0 hs
  · rw [sync_of_sp_result env t i0 iF true h0 hs h1]
    cases t.ignore_mempool <;> simp

def envC9 : SyncEnv Nat Nat :=
  { indexSync := fun i => (Except.ok true, i)
    spSync := fun i => (Except.ok true, i)
    mempoolSync := fun m => m }

def trackerC9 : Tracker Nat Nat :=
  { index := 3, mempool := 5, ignore_mempool := false, silent_payments_index := true }

/-- Witness for C9 at a fully-caught-up concrete environment. -/
theorem sync_idempotent_witness :
    Tracker.sync envC9 trackerC9 =
      (Except.ok true,
       { trackerC9 with index := 3,
                        mempool := if trackerC9.ignore_mempool then trackerC9.mempool
                                   else envC9.mempoolSync trackerC9.mempool }) :=
  sync_idempotent envC9 trackerC9 3 3 rfl (Or.inr ⟨rfl, rfl⟩)

/-- C2: a successful `Tracker::update_scripthash_status` returns `true`
exactly when the statushash of the recomputed status differs from the
statushash held immediately before the recomputation; the returned
status is the one produced by `ScriptHashStatus::sync`. -/
theorem update_scripthash_status_changed [DecidableEq H]
    (env : StatusEnv S H) (status status1 : S) (b : Bool)
    (h : Tracker.update_scripthash_status env status = Except.ok (b, status1)) :
    (b = true ↔ env.statushash status ≠ env.statushash status1) ∧
    env.statusSync status = Except.ok status1 := by
  unfold Tracker.update_scripthash_status at h
  rcases hs : env.statusSync status with e | s1
  · rw [hs] at h
    exact absurd h (by simp)
  · rw [hs] at h
    simp only [Except.ok.injEq, Prod.mk.injEq] at h
    obtain ⟨hb, hs1⟩ := h
    subst hs1
    subst hb
    exact ⟨by simp [decide_eq_true_eq], rfl⟩

def statusEnvC2 : StatusEnv Nat Nat :=
  { statushash := fun s => s
    statusSync := fun s => Except.ok (s + 1) }

/-- Witness for C2 at a concrete status environment where the
recomputation changes the hash. -/
theorem update_scripthash_status_changed_witness :
    ((true = true ↔ statusEnvC2.statushash 0 ≠ statusEnvC2.statushash 1) ∧
     statusEnvC2.statusSync 0 = Except.ok 1) :=
  update_scripthash_status_changed statusEnvC2 0 1 true rfl

/-- C5: for a fixed `(Index, Mempool)` snapshot, two successive
recomputations of the same `ScriptHashStatus` through
`Tracker::update_scripthash_status` yield identical statushash values
(determinism, over the spec-modelled `ScriptHashStatus`). -/
theorem update_scripthash_status_deterministic [DecidableEq H]
    (digest : I → M → Nat → H) (idx : I) (mp : M)
    (s s1 s2 : ScriptHashStatus H) (b1 b2 : Bool)
    (h1 : Tracker.update_scripthash_status (statusEnvOf digest idx mp) s
            = Except.ok (b1, s1))
    (h2 : Tracker.update_scripthash_status (statusEnvOf digest idx mp) s1
            = Except.ok (b2, s2)) :
    s1.statushash = s2.statushash := by
  unfold Tracker.update_scripthash_status statusEnvOf at h1 h2
  simp only [Except.ok.injEq, Prod.mk.injEq] at h1 h2
  obtain ⟨-, hs1⟩ := h1
  obtain ⟨-, hs2⟩ := h2
  subst hs1
  subst hs2
  rfl

def digestC5 : Nat → Nat → Nat → Nat := fun i m sh => i + m + sh

/-- Witness for C5 at a concrete snapshot and digest. -/
theorem update_scripthash_status_deterministic_witness :
    (ScriptHashStatus.syncAgainst digestC5 1 2 ⟨7, 0⟩).statushash =
      (ScriptHashStatus.syncAgainst digestC5 1 2
        (ScriptHashStatus.syncAgainst digestC5 1 2 ⟨7, 0⟩)).statushash :=
  update_scripthash_status_deterministic digestC5 1 2 ⟨7, 0⟩
    (ScriptHashStatus.syncAgainst digestC5 1 2 ⟨7, 0⟩)
    (ScriptHashStatus.syncAgainst digestC5 1 2
      (ScriptHashStatus.syncAgainst digestC5 1 2 ⟨7, 0⟩))
    true false rfl rfl

/-! Lemmas for `Tracker.lookup_transaction` -/

theorem lookupLoop_of_isSome (txid : Nat) (env : LookupEnv) :
    ∀ (hs : List Nat) (res : Option (Nat × Transaction)), res.isSome = true →
      (∀ q ∈ hs, (env.fetch q).isSome = true) →
      lookupLoop txid env hs res = LookupOutcome.found res := by
  intro hs
  induction hs with
  | nil => intro res _ _; rfl
  | cons q rest ih =>
    intro res hres hf
    have hq := hf q (List.mem_cons_self q rest)
    rcases hfq : env.fetch q with - | block
    · rw [hfq] at hq
      simp at hq
    · simp [lookupLoop, hfq, hres]
      exact ih res hres (fun p hp => hf p (List.mem_cons_of_mem q hp))

theorem lookupLoop_nomatch_append (txid : Nat) (env : LookupEnv) :
    ∀ (pre l : List Nat),
      (∀ p ∈ pre, ∃ ptxs, env.fetch p = some (RawBlock.valid ptxs) ∧
        findTx txid ptxs = none) →
      lookupLoop txid env (pre ++ l) none = lookupLoop txid env l none := by
  intro pre
  induction pre with
  | nil => intro l _; rfl
  | cons p rest ih =>
    intro l hpre
    obtain ⟨ptxs, hfp, hnone⟩ := hpre p (List.mem_cons_self p rest)
    simp only [List.cons_append]
    simp [lookupLoop, hfp, hnone]
    exact ih l (fun q hq => hpre q (List.mem_cons_of_mem p hq))

/-- C3: with candidate blocks reported in Index order, the result is
the first match in the first candidate block containing the
transaction; the later candidates are fetched but never scanned (here
their content is entirely unconstrained — they may even be invalid). -/
theorem lookup_transaction_first_match (env : LookupEnv) (txid : Nat)
    (pre rest : List Nat) (bh : Nat) (txs : List Transaction) (tx : Transaction)
    (hfilter : env.filter_by_txid txid = pre ++ bh :: rest)
    (hpre : ∀ p ∈ pre, ∃ ptxs, env.fetch p = some (RawBlock.valid ptxs) ∧
      findTx txid ptxs = none)
    (hfetch : env.fetch bh = some (RawBlock.valid txs))
    (hfound : findTx txid txs = some tx)
    (hrest : ∀ q ∈ rest, (env.fetch q).isSome = true) :
    Tracker.lookup_transaction env txid = LookupOutcome.found (some (bh, tx)) := by
  unfold Tracker.lookup_transaction
  rw [hfilter, lookupLoop_nomatch_append txid env pre (bh :: rest) hpre]
  simp [lookupLoop, hfetch, hfound]
  exact lookupLoop_of_isSome txid env rest (some (bh, tx)) rfl hrest

def envC3 : LookupEnv :=
  { filter_by_txid := fun _ => [1, 2]
    fetch := fun bh => if bh = 1 then some (RawBlock.valid [⟨5, 0⟩])
                       else some (RawBlock.invalid 0) }

/-- Witness for C3: txid 5 lives in the first candidate block; the
second candidate is invalid yet is never scanned, so no fault occurs. -/
theorem lookup_transaction_first_match_witness :
    Tracker.lookup_transaction envC3 5 = LookupOutcome.found (some (1, ⟨5, 0⟩)) :=
  lookup_transaction_first_match envC3 5 [] [2] 1 [⟨5, 0⟩] ⟨5, 0⟩ rfl
    (fun p hp => absurd hp (List.not_mem_nil p)) rfl rfl (by decide)

/-- C7: a candidate block that fails structural validation while the
transaction is still being searched makes `lookup_transaction`
terminate with the panic-style fatal outcome, never with the
recoverable error outcome. -/
theorem lookup_transaction_invalid_block_fatal (env : LookupEnv) (txid : Nat)
    (pre rest : List Nat) (bh : Nat) (code : Nat)
    (hfilter : env.filter_by_txid txid = pre ++ bh :: rest)
    (hpre : ∀ p ∈ pre, ∃ ptxs, env.fetch p = some (RawBlock.valid ptxs) ∧
      findTx txid ptxs = none)
    (hfetch : env.fetch bh = some (RawBlock.invalid code)) :
    Tracker.lookup_transaction env txid = LookupOutcome.fatal "core returned invalid block" ∧
    ∀ msg, Tracker.lookup_transaction env txid ≠ LookupOutcome.err msg := by
  have hmain :
      Tracker.lookup_transaction env txid
        = LookupOutcome.fatal "core returned invalid block" := by
    unfold Tracker.lookup_transaction
    rw [hfilter, lookupLoop_nomatch_append txid env pre (bh :: rest) hpre]
    simp [lookupLoop, hfetch]
  refine ⟨hmain, fun msg h => ?_⟩
  rw [hmain] at h
  exact absurd h (by simp)

def envC7 : LookupEnv :=
  { filter_by_txid := fun _ => [3]
    fetch := fun _ => some (RawBlock.invalid 1) }

/-- Witness for C7: the single candidate block is invalid. -/
theorem lookup_transaction_invalid_block_fatal_witness :
    Tracker.lookup_transaction envC7 9 = LookupOutcome.fatal "core returned invalid block" :=
  (lookup_transaction_invalid_block_fatal envC7 9 [] [] 3 1 rfl
    (fun p hp => absurd hp (List.not_mem_nil p)) rfl).1

/-- C8: when the Index has no candidate block for the txid, or the
transaction is found in none of the (valid) candidate blocks,
`lookup_transaction` returns success with no result, not an error. -/
theorem lookup_transaction_not_found_ok (env : LookupEnv) (txid : Nat) :
    (env.filter_by_txid txid = [] →
      Tracker.lookup_transaction env txid = LookupOutcome.found none) ∧
    ((∀ p ∈ env.filter_by_txid txid,
        ∃ ptxs, env.fetch p = some (RawBlock.valid ptxs) ∧ findTx txid ptxs = none) →
      Tracker.lookup_transaction env txid = LookupOutcome.found none) := by
  constructor
  · intro hempty
    unfold Tracker.lookup_transaction
    rw [hempty]
    rfl
  · intro hall
    unfold Tracker.lookup_transaction
    have hred := lookupLoop_nomatch_append txid env (env.filter_by_txid txid) [] hall
    rw [List.append_nil] at hred
    rw [hred]
    rfl

def envC8 : LookupEnv :=
  { filter_by_txid := fun _ => [4]
    fetch := fun _ => some (RawBlock.valid [⟨6, 0⟩]) }

/-- Witness for C8: the only candidate block does not contain txid 5. -/
theorem lookup_transaction_not_found_ok_witness :
    Tracker.lookup_transaction envC8 5 = LookupOutcome.found none :=
  (lookup_transaction_not_found_ok envC8 5).2 (by
    intro p hp
    have hp4 : p = 4 := by simpa [envC8] using hp
    subst hp4
    exact ⟨[⟨6, 0⟩], rfl, rfl⟩)

/-! Lemmas for `Tracker.get_tweaks` -/

theorem hmFind_hmEntryExtend (m : List (Nat × List String)) (k : Nat)
    (vs : List String) (h : Nat) :
    hmFind (hmEntryExtend m k vs) h =
      if k = h then some ((hmFind m h).getD [] ++ vs) else hmFind m h := by
  induction m with
  | nil =>
    by_cases hk : k = h <;> simp [hmEntryExtend, hmFind, hk]
  | cons p rest ih =>
    obtain ⟨k1, vs1⟩ := p
    by_cases h1k : k1 = k
    · subst h1k
      by_cases hk : k1 = h <;> simp [hmEntryExtend, hmFind, hk]
    · by_cases hk : k = h
      · subst hk
        simp [hmEntryExtend, hmFind, h1k, ih]
      · by_cases hk1h : k1 = h
        · simp [hmEntryExtend, hmFind, h1k, hk1h, hk, Ne.symm hk]
        · simp [hmEntryExtend, hmFind, h1k, hk1h, hk, ih]

theorem hmFind_fold_tweaks (records : List TweakRecord) :
    ∀ (m : List (Nat × List String)) (h : Nat),
      (hmFind (records.foldl (fun res r => hmEntryExtend res r.1 r.2) m) h).getD [] =
        (hmFind m h).getD [] ++ tweaksAt records h := by
  induction records with
  | nil => intro m h; simp [tweaksAt]
  | cons r rs ih =>
    intro m h
    simp only [List.foldl_cons]
    rw [ih (hmEntryExtend m r.1 r.2) h, hmFind_hmEntryExtend]
    by_cases hk : r.1 = h
    · simp [tweaksAt, hk]
    · simp [tweaksAt, hk]

/-- C6: `get_tweaks` groups the Index's tweak records by height and
concatenates every tweak list recorded for the same height, never
overwriting earlier contributions: the resulting map carries, at each
height, exactly the concatenation of all values the record sequence
yielded for that height. -/
theorem get_tweaks_concat (idx : Nat → List TweakRecord) (height h : Nat)
    (m : List (Nat × List String))
    (hm : Tracker.get_tweaks idx height = Except.ok m) :
    (hmFind m h).getD [] = tweaksAt (idx height) h := by
  unfold Tracker.get_tweaks at hm
  simp only [Except.ok.injEq] at hm
  subst hm
  simpa using hmFind_fold_tweaks (idx height) [] h

def idxC6 : Nat → List TweakRecord := fun _ => [(100, ["a"]), (100, ["b"])]

/-- Witness for C6: records `(100, ["a"])` and `(100, ["b"])` map
height 100 to `["a", "b"]` — both contributions preserved. -/
theorem get_tweaks_concat_witness :
    (hmFind [(100, ["a", "b"])] 100).getD [] = tweaksAt (idxC6 100) 100 :=
  get_tweaks_concat idxC6 100 100 [(100, ["a", "b"])] rfl

/-- C10: `get_tweaks` always returns `Ok` — its error case is
unreachable — and yields the empty mapping when the Index has no tweak
records at or above the given height. -/
theorem get_tweaks_total (idx : Nat → List TweakRecord) (height : Nat) :
    (∃ m, Tracker.get_tweaks idx height = Except.ok m) ∧
    (idx height = [] → Tracker.get_tweaks idx height = Except.ok []) := by
  refine ⟨⟨_, rfl⟩, fun hempty => ?_⟩
  unfold Tracker.get_tweaks
  rw [hempty]
  rfl

/-- Witness for C10 at an Index yielding no records. -/
theorem get_tweaks_total_witness :
    Tracker.get_tweaks (fun _ => ([] : List TweakRecord)) 7 = Except.ok [] :=
  (get_tweaks_total (fun _ => []) 7).2 rfl

end Electrs
